import Mathlib

/-!
Verification of the meeper recording pipeline: a shallow embedding of the
recorder session (recordMeeper), the chunked audio capture (captureAudio),
the transcription merge rule, the retry wrapper and the serial promise
queue, together with theorems about ordering, idempotence, retry and
stream-health behaviour.
-/

/-! ## Transcript merge rule (recordMeeper, onAudio queue task) -/

/-- Ellipsis marker used by the continuation merge rule. -/
def ellipsisMark : String := "..."

/-- Model of JavaScript String.prototype.trim: strip whitespace from both
ends of the string, working on the character list. -/
def jsTrim (s : String) : String :=
  String.mk (((s.data.dropWhile Char.isWhitespace).reverse.dropWhile
    Char.isWhitespace).reverse)

/-- Model of JavaScript String.prototype.endsWith applied to the three-dot
ellipsis marker: the last three characters are all dots. -/
def endsWithEllipsis (s : String) : Bool :=
  match s.data.reverse with
  | c1 :: c2 :: c3 :: _ => c1 == ('.') && c2 == ('.') && c3 == ('.')
  | _ => false

/-- Merge a newly transcribed text into the transcript content, as the
queue task does: if the trimmed last segment is non-empty and ends with
the ellipsis marker, the marker is stripped and the new text is appended
to that segment after a single space; otherwise the text is pushed as a
new segment. -/
def applyTranscription (content : List String) (text : String) : List String :=
  match content.getLast?.map jsTrim with
  | some lastItem =>
    if lastItem != ("") && endsWithEllipsis lastItem then
      content.dropLast ++ [lastItem.dropRight 3 ++ (" ") ++ text]
    else
      content ++ [text]
  | none => content ++ [text]

/-- Body of a serial-queue task: a failed transcription (none) or an empty
text leaves the content untouched; otherwise the merge rule is applied. -/
def onAudioTask (content : List String) (result : Option String) : List String :=
  match result with
  | none => content
  | some text => if text = "" then content else applyTranscription content text

/-! ## Whisper prompt construction (recordMeeper, onAudio) -/

/-- Effective index of a JavaScript Array.prototype.slice argument: a
negative index counts from the end clamped at 0, a non-negative index is
clamped at the length. -/
def jsSliceIdx (len : Nat) (i : Int) : Nat :=
  if i < 0 then ((len : Int) + i).toNat else min i.toNat len

/-- JavaScript Array.prototype.slice on a list of strings. -/
def jsSlice (xs : List String) (start stop : Int) : List String :=
  let s := jsSliceIdx xs.length start
  let e := jsSliceIdx xs.length stop
  (xs.drop s).take (e - s)

/-- Continuation prompt sent with a transcription request; the source
computes content.slice of the window from length minus three to length and
joins it with a newline. -/
def whisperPrompt (content : List String) : String :=
  String.intercalate ("\n")
    (jsSlice content ((content.length : Int) - 3) (content.length : Int))

/-- Language field of the request: the saved language unless it is auto. -/
def whisperLanguage (savedLanguage : String) : Option String :=
  if savedLanguage != ("auto") then some savedLanguage else none

/-- Start index that the prompt window actually uses, as a function of the
transcript length n: n minus three for n at least three, otherwise two
times n minus three clamped at zero (the JavaScript negative-start rule). -/
def promptStart (n : Nat) : Nat :=
  if n < 3 then 2 * n - 3 else n - 3

/-! ## Retry wrapper

Modelled from the spec: the retry helper lives in src/lib/system, which is
not under src/; per the spec it performs up to maxAttempts attempts with a
fixed inter-attempt delay, returns the first success, and reports failure
to the caller after the last failed attempt. -/

/-- Modelled from the spec: run attempts i, i+1, ... while fuel lasts,
returning the first successful outcome, none if all fail. -/
def retryAttempts (outcome : Nat → Option String) : Nat → Nat → Option String
  | _, 0 => none
  | i, Nat.succ fuel =>
    match outcome i with
    | some t => some t
    | none => retryAttempts outcome (i + 1) fuel

/-- Modelled from the spec: retry with maxAttempts bounded attempts,
starting at attempt 0. -/
def retryRun (outcome : Nat → Option String) (maxAttempts : Nat) : Option String :=
  retryAttempts outcome 0 maxAttempts

/-! ## Serial promise queue

Modelled from the spec: promiseQueue lives in src/lib/system, which is not
under src/; per the spec it is a strictly serial FIFO queue: tasks are
enqueued in chunk-creation order and task N does not begin until task N-1
has finished. Task i first awaits its own transcription result, then
applies it to the shared content. -/

/-- An event of a queue execution: some chunk's transcription request
completes, or the queue tries to run its next task (which only proceeds
when that task's own result has completed). -/
inductive QEvent where
  | complete : Nat → QEvent
  | run : QEvent

/-- State of a queue execution: which results have completed, how many
tasks have finished, and the shared transcript content. -/
structure QState where
  done : Nat → Bool
  applied : Nat
  content : List String

/-- Modelled from the spec: one step of the serial queue. A completion
marks its result available; a run step executes the next task only if it
exists and its awaited result is available, and tasks execute strictly in
enqueue order. -/
def qstep (chunkCount : Nat) (res : Nat → Option String) (s : QState) :
    QEvent → QState
  | QEvent.complete i => { s with done := fun j => if j = i then true else s.done j }
  | QEvent.run =>
    if s.applied < chunkCount then
      if s.done s.applied then
        { s with applied := s.applied + 1
                 content := onAudioTask s.content (res s.applied) }
      else s
    else s

/-- Run a whole queue trace from a state. -/
def runTrace (chunkCount : Nat) (res : Nat → Option String) (s : QState)
    (tr : List QEvent) : QState :=
  tr.foldl (qstep chunkCount res) s

/-- Initial queue state: nothing completed, nothing applied, empty content. -/
def initQ : QState :=
  { done := fun _ => false, applied := 0, content := [] }

/-- The transcript obtained by applying every chunk's result in chunk
creation order. -/
def canonicalContent (chunkCount : Nat) (res : Nat → Option String) : List String :=
  (List.range chunkCount).foldl (fun c i => onAudioTask c (res i)) []

/-! ## Chunked audio capture (captureAudio) -/

/-- Default minimum chunk duration in milliseconds. -/
def minChunkDuration : Nat := 5000

/-- State of the captureAudio closure: the last flush timestamp, the
buffered blobs, whether the recorder is running, the firing times of
pending trailing-delay stop timers, whether speech detection is
subscribed, and the chunk files emitted so far. -/
structure CaptureState where
  startedAt : Option Nat
  chunks : List Nat
  recActive : Bool
  pendingStops : List Nat
  speechDetectOn : Bool
  emitted : List (List Nat)
deriving DecidableEq

/-- Initial captureAudio state. -/
def captureInit : CaptureState :=
  { startedAt := none, chunks := [], recActive := false
    pendingStops := [], speechDetectOn := true, emitted := [] }

/-- The onDataAvailable handler: push the data, return early when the
elapsed time since the last flush is below the minimum chunk duration,
otherwise emit one file with everything buffered, reset the buffer and set
the flush timestamp to the current time. -/
def onDataAvailable (minDur : Nat) (s : CaptureState) (data : Nat) (now : Nat) :
    CaptureState :=
  let buf := s.chunks ++ [data]
  let flushed : CaptureState :=
    { s with chunks := [], startedAt := some now, emitted := s.emitted ++ [buf] }
  match s.startedAt with
  | some t0 => if now - t0 < minDur then { s with chunks := buf } else flushed
  | none => flushed

/-- The startRecord helper: set the flush timestamp if unset and start the
recorder. -/
def startRecord (s : CaptureState) (now : Nat) : CaptureState :=
  let s1 :=
    match s.startedAt with
    | none => { s with startedAt := some now }
    | some _ => s
  { s1 with recActive := true }

/-- Speech-start event: starts recording (delivered only while speech
detection is subscribed). -/
def speechStart (s : CaptureState) (now : Nat) : CaptureState :=
  if s.speechDetectOn then startRecord s now else s

/-- Speech-end event: schedules a stopRecord call 30 milliseconds later
(delivered only while speech detection is subscribed). -/
def speechEnd (s : CaptureState) (now : Nat) : CaptureState :=
  if s.speechDetectOn then { s with pendingStops := s.pendingStops ++ [now + 30] }
  else s

/-- A scheduled trailing-delay timer fires: it is removed from the pending
set and the recorder is stopped. Modelled from the spec for the missing
recordAudio source: stopping the recorder emits nothing, buffered audio
stays unflushed. -/
def fireStop (s : CaptureState) : CaptureState :=
  match s.pendingStops with
  | [] => s
  | _ :: rest => { s with pendingStops := rest, recActive := false }

/-- The teardown closure returned by captureAudio: it unsubscribes speech
detection and stops the recorder; it does not touch the pending timers. -/
def teardownCapture (s : CaptureState) : CaptureState :=
  { s with speechDetectOn := false, recActive := false }

/-! ## Recorder session (recordMeeper) -/

/-- A media stream as a list of its tracks' ended flags. -/
structure MediaStream where
  tracks : List Bool
deriving DecidableEq

/-- A stream is active while some track has not ended. -/
def MediaStream.active (m : MediaStream) : Bool :=
  m.tracks.any (fun e => !e)

/-- Stop every track of a stream. -/
def stopTracks (m : MediaStream) : MediaStream :=
  { tracks := m.tracks.map (fun _ => true) }

/-- A state snapshot sent to the UI boundary. -/
structure MeeperState where
  recording : Bool
  content : List String
deriving DecidableEq

/-- State of the recordMeeper closure: the recording flag, the shared
content, the merged stream, the two source streams, whether captureAudio
is running, and the emitted state notifications. -/
structure SessionState where
  recording : Bool
  content : List String
  stream : MediaStream
  tabStream : Option MediaStream
  micStream : Option MediaStream
  capturing : Bool
  notifs : List MeeperState
deriving DecidableEq

namespace Meeper

/-- The dispatch helper: notify the UI boundary with the current
recording flag and content. -/
def dispatch (s : SessionState) : SessionState :=
  { s with notifs := s.notifs ++ [{ recording := s.recording, content := s.content }] }

/-- Modelled from the spec: mergeStreams lives in src/lib/capture-audio
outside src/; it derives a fresh merged stream by mixing the currently
available sources, and the freshly derived stream is live. -/
def mergeStreams (_tab _mic : Option MediaStream) : MediaStream :=
  { tracks := [false] }

/-- The start operation: a no-op when already recording or when the merged
stream is inactive; otherwise set the flag, notify, and begin capture. -/
def start (s : SessionState) : SessionState :=
  if s.recording || !s.stream.active then s
  else
    let s1 := dispatch { s with recording := true }
    { s1 with capturing := true }

/-- The pause operation: a no-op when not recording; otherwise clear the
flag, notify, and stop capture. -/
def pause (s : SessionState) : SessionState :=
  if s.recording then
    let s1 := dispatch { s with recording := false }
    { s1 with capturing := false }
  else s

/-- The stop operation: pause, then stop every track when the merged
stream is still active. -/
def stop (s : SessionState) : SessionState :=
  let s1 := pause s
  if s1.stream.active then { s1 with stream := stopTracks s1.stream } else s1

/-- The successful branch of microphone re-acquisition: pause if
recording, swap in the new microphone stream, re-derive the merged
stream, then restart if it had been recording, else notify. -/
def micReplace (s : SessionState) (newMic : MediaStream) : SessionState :=
  let restart := s.recording
  let s1 := if s.recording then pause s else s
  let s2 := { s1 with micStream := some newMic
                      stream := mergeStreams s1.tabStream (some newMic) }
  if restart then start s2 else dispatch s2

/-- One poll of checkIsStreamIsActive. The reacq argument is the outcome
of the micCapture call made when the microphone source is inactive (none
when that call fails, in which case the error is only logged). Returns
the next state and whether another poll is scheduled. -/
def pollStep (s : SessionState) (reacq : Option MediaStream) :
    SessionState × Bool :=
  let s1 :=
    match s.micStream with
    | some m =>
      if m.active then s
      else
        match reacq with
        | some newMic => micReplace s newMic
        | none => s
    | none => s
  let ok :=
    (match s1.tabStream with | some t => t.active | none => true) &&
    (match s1.micStream with | some m => m.active | none => true)
  if ok then (s1, true) else (dispatch (stop s1), false)

end Meeper

/-! ## Concrete states used by witnesses and counterexamples -/

/-- A session that is recording, with both sources live. -/
def sessionRec : SessionState :=
  ⟨true, [], ⟨[false]⟩, some ⟨[false]⟩, some ⟨[false]⟩, true, []⟩

/-- A session that is not recording. -/
def sessionIdle : SessionState :=
  ⟨false, [("x")], ⟨[false]⟩, some ⟨[false]⟩, none, false, []⟩

/-- A recording session whose microphone source has gone inactive while
the tab source is still live. -/
def sessionMicDead : SessionState :=
  ⟨true, [], ⟨[false]⟩, some ⟨[false]⟩, some ⟨[true]⟩, true, []⟩

/-- A recording session whose tab-capture source has gone inactive while
the microphone is still live. -/
def sessionTabDead : SessionState :=
  ⟨true, [], ⟨[false]⟩, some ⟨[true]⟩, some ⟨[false]⟩, true, []⟩

/-- A capture state with a running recorder, a last flush at time 0 and
two buffered blobs. -/
def captureRunning : CaptureState :=
  ⟨some 0, [1, 2], true, [], true, []⟩

/-- Results for a two-chunk queue run. -/
def resW : Nat → Option String :=
  fun i => if i = 0 then some ("a") else some ("b")

/-- A queue trace in which chunk 1 completes before chunk 0: the first
run step blocks on chunk 0, which is applied only after it completes. -/
def trW : List QEvent :=
  [QEvent.complete 1, QEvent.run, QEvent.complete 0, QEvent.run, QEvent.run]

/-- Attempt outcomes failing once then succeeding. -/
def outcomeW1 : Nat → Option String :=
  fun i => if i = 1 then some ("hi") else none

/-- Attempt outcomes that always fail. -/
def outcomeW2 : Nat → Option String :=
  fun _ => none

/-! ## Helper lemmas -/

theorem pause_noop (s : SessionState) (h : s.recording = false) :
    Meeper.pause s = s := by
  simp [Meeper.pause, h]

theorem start_noop (s : SessionState) (h : s.recording = true) :
    Meeper.start s = s := by
  simp [Meeper.start, h]

theorem pause_recording_false (s : SessionState) :
    (Meeper.pause s).recording = false := by
  unfold Meeper.pause
  cases h : s.recording <;> simp [Meeper.dispatch, h]

theorem stop_recording_false (s : SessionState) :
    (Meeper.stop s).recording = false := by
  unfold Meeper.stop
  cases h : (Meeper.pause s).stream.active <;> simp [h, pause_recording_false]

theorem active_false_all (m : MediaStream) (h : m.active = false) :
    ∀ b ∈ m.tracks, b = true := by
  intro b hb
  unfold MediaStream.active at h
  rw [List.any_eq_false] at h
  have := h b hb
  simpa using this

theorem stop_all_ended (s : SessionState) :
    ∀ b ∈ (Meeper.stop s).stream.tracks, b = true := by
  unfold Meeper.stop
  cases h : (Meeper.pause s).stream.active with
  | false =>
    simpa [h] using active_false_all _ h
  | true =>
    simp [h, stopTracks]

theorem stop_stream_inactive (s : SessionState) :
    (Meeper.stop s).stream.active = false := by
  have hall := stop_all_ended s
  unfold MediaStream.active
  rw [List.any_eq_false]
  intro b hb
  simpa using hall b hb

theorem pause_stream_eq (s : SessionState) :
    (Meeper.pause s).stream = s.stream := by
  unfold Meeper.pause
  cases h : s.recording <;> simp [Meeper.dispatch, h]

theorem pause_capturing_false (s : SessionState) (h : s.capturing = s.recording) :
    (Meeper.pause s).capturing = false := by
  unfold Meeper.pause
  cases hr : s.recording <;> simp [Meeper.dispatch, hr]
  rw [h, hr]

theorem stop_capturing_false (s : SessionState) (h : s.capturing = s.recording) :
    (Meeper.stop s).capturing = false := by
  unfold Meeper.stop
  cases hs : (Meeper.pause s).stream.active <;>
    simp [hs, pause_capturing_false s h]

/-- C6: start while already recording and pause while already paused are
both no-ops: the state, including the emitted notifications, is unchanged
and no capture is begun or flushed. -/
theorem start_pause_idempotent (s : SessionState) :
    (s.recording = true → Meeper.start s = s) ∧
    (s.recording = false → Meeper.pause s = s) :=
  ⟨fun h => start_noop s h, fun h => pause_noop s h⟩

/-- Witness for C6 at two concrete sessions, one recording, one paused. -/
theorem start_pause_idempotent_witness :
    (sessionRec.recording = true ∧ Meeper.start sessionRec = sessionRec) ∧
    (sessionIdle.recording = false ∧ Meeper.pause sessionIdle = sessionIdle) :=
  ⟨⟨by decide, (start_pause_idempotent sessionRec).1 (by decide)⟩,
   ⟨by decide, (start_pause_idempotent sessionIdle).2 (by decide)⟩⟩

/-- C10: stop is idempotent: a second stop call finds recording already
false and the stream already inactive, so it changes nothing and emits no
further notification. -/
theorem stop_idempotent (s : SessionState) :
    Meeper.stop (Meeper.stop s) = Meeper.stop s := by
  set t := Meeper.stop s with ht
  have hrec : t.recording = false := stop_recording_false s
  have hact : t.stream.active = false := stop_stream_inactive s
  show Meeper.stop t = t
  unfold Meeper.stop
  rw [pause_noop t hrec]
  simp [hact]

/-- C2: applying a non-empty new text to a transcript whose trimmed last
segment ends with the three-dot marker strips the marker and replaces the
last segment with the stripped text, one space and the new text, adding no
segment; when the trimmed last segment does not end with the marker, the
text is appended as a new segment; in particular the segment Hello, how
are you... merged with is it going gives Hello, how are you is it going. -/
theorem merge_rule (content : List String) (t : String) (ht : t ≠ "") :
    (∀ last, content.getLast? = some last →
      endsWithEllipsis (jsTrim last) = true →
      applyTranscription content t =
        content.dropLast ++ [(jsTrim last).dropRight 3 ++ (" ") ++ t]) ∧
    (∀ last, content.getLast? = some last →
      endsWithEllipsis (jsTrim last) = false →
      applyTranscription content t = content ++ [t]) ∧
    applyTranscription [("Hello, how are you...")] ("is it going") =
      [("Hello, how are you is it going")] := by
  refine ⟨?_, ?_, by decide⟩
  · intro last hlast hends
    have hne : jsTrim last ≠ ("") := by
      intro h0
      rw [h0] at hends
      exact absurd hends (by decide)
    unfold applyTranscription
    rw [hlast]
    simp [hends, hne]
  · intro last hlast hends
    unfold applyTranscription
    rw [hlast]
    simp [hends]

/-- Witness for C2 at the concrete continuation example. -/
theorem merge_rule_witness :
    (("is it going") : String) ≠ ("") ∧
    ((∀ last, ([("Hello, how are you...")] : List String).getLast? = some last →
        endsWithEllipsis (jsTrim last) = true →
        applyTranscription [("Hello, how are you...")] ("is it going") =
          ([("Hello, how are you...")] : List String).dropLast ++
            [(jsTrim last).dropRight 3 ++ (" ") ++ ("is it going")]) ∧
     (∀ last, ([("Hello, how are you...")] : List String).getLast? = some last →
        endsWithEllipsis (jsTrim last) = false →
        applyTranscription [("Hello, how are you...")] ("is it going") =
          [("Hello, how are you...")] ++ [("is it going")]) ∧
     applyTranscription [("Hello, how are you...")] ("is it going") =
       [("Hello, how are you is it going")]) :=
  ⟨by decide, merge_rule [("Hello, how are you...")] ("is it going") (by decide)⟩

theorem jsSliceIdx_sub3 (n : Nat) :
    jsSliceIdx n ((n : Int) - 3) = promptStart n := by
  unfold jsSliceIdx promptStart
  split <;> split <;> omega

theorem jsSliceIdx_len (n : Nat) : jsSliceIdx n (n : Int) = n := by
  unfold jsSliceIdx
  split <;> omega

/-- C9 as stated is false: for the two-segment transcript a, b the prompt
is only the last segment b, not the newline-join of the last two
segments. -/
theorem whisper_prompt_cex :
    whisperPrompt [("a"), ("b")] = ("b") ∧
    whisperPrompt [("a"), ("b")] ≠
      String.intercalate ("\n") [("a"), ("b")] := by
  constructor
  · decide
  · decide

/-- C9 amended: the prompt joins with a newline the tail of the transcript
from the start index promptStart n, which is n - 3 when the transcript has
n at least 3 segments (so the last three segments), the whole transcript
when n is 0 or 1, but only the last segment when n = 2, by the JavaScript
negative-start slice rule; the language code is included exactly when the
saved language is not auto. -/
theorem whisper_prompt_window (content : List String) (savedLanguage : String) :
    whisperPrompt content =
      String.intercalate ("\n") (content.drop (promptStart content.length)) ∧
    whisperLanguage savedLanguage =
      (if savedLanguage = ("auto") then none else some savedLanguage) := by
  constructor
  · unfold whisperPrompt jsSlice
    rw [jsSliceIdx_sub3, jsSliceIdx_len]
    exact congrArg (String.intercalate ("\n"))
      (List.take_of_length_le (le_of_eq (List.length_drop _ _)))
  · unfold whisperLanguage
    by_cases h : savedLanguage = ("auto") <;> simp [h]

theorem retryAttempts_all_fail (outcome : Nat → Option String) :
    ∀ (n i : Nat), (∀ j, j < n → outcome (i + j) = none) →
    retryAttempts outcome i n = none := by
  intro n
  induction n with
  | zero => intro i _; rfl
  | succ m ih =>
    intro i h
    unfold retryAttempts
    have h0 : outcome i = none := by simpa using h 0 (Nat.succ_pos m)
    rw [h0]
    apply ih
    intro j hj
    have h2 := h (j + 1) (by omega)
    rw [show i + (j + 1) = i + 1 + j by omega] at h2
    exact h2

theorem retryAttempts_success (outcome : Nat → Option String) (t : String) :
    ∀ (n i k : Nat), (∀ j, j < k → outcome (i + j) = none) →
    outcome (i + k) = some t → k < n →
    retryAttempts outcome i n = some t := by
  intro n
  induction n with
  | zero => intro i k _ _ hk; exact absurd hk (Nat.not_lt_zero k)
  | succ m ih =>
    intro i k hfail hsucc hk
    unfold retryAttempts
    cases k with
    | zero =>
      have h0 : outcome i = some t := by simpa using hsucc
      rw [h0]
    | succ k2 =>
      have h0 : outcome i = none := by simpa using hfail 0 (Nat.succ_pos k2)
      rw [h0]
      apply ih (i + 1) k2
      · intro j hj
        have h2 := hfail (j + 1) (by omega)
        rw [show i + (j + 1) = i + 1 + j by omega] at h2
        exact h2
      · rw [show i + 1 + k2 = i + (k2 + 1) by omega]
        exact hsucc
      · omega

/-- C3: a transcription whose attempts 0..k-1 fail and whose attempt k
succeeds with k below maxAttempts yields the successful non-empty text
applied to the transcript exactly once; when all maxAttempts attempts fail
the retry reports none, the queue task leaves the content unchanged and no
error escapes. -/
theorem bounded_retry (maxAttempts : Nat) :
    (∀ (outcome : Nat → Option String) (k : Nat) (t : String)
      (content : List String),
      (∀ j, j < k → outcome j = none) → outcome k = some t →
      k < maxAttempts → t ≠ "" →
      retryRun outcome maxAttempts = some t ∧
      onAudioTask content (retryRun outcome maxAttempts) =
        applyTranscription content t) ∧
    (∀ (outcome : Nat → Option String) (content : List String),
      (∀ j, j < maxAttempts → outcome j = none) →
      retryRun outcome maxAttempts = none ∧
      onAudioTask content (retryRun outcome maxAttempts) = content) := by
  constructor
  · intro outcome k t content hfail hsucc hk ht
    have hr : retryRun outcome maxAttempts = some t := by
      unfold retryRun
      apply retryAttempts_success outcome t maxAttempts 0 k
      · simpa using hfail
      · simpa using hsucc
      · exact hk
    refine ⟨hr, ?_⟩
    rw [hr]
    unfold onAudioTask
    simp [ht]
  · intro outcome content hfail
    have hr : retryRun outcome maxAttempts = none := by
      unfold retryRun
      apply retryAttempts_all_fail
      simpa using hfail
    exact ⟨hr, by rw [hr]; rfl⟩

/-- Witness for C3 with two attempts: an outcome failing once then
succeeding, and an outcome failing both attempts. -/
theorem bounded_retry_witness :
    ((∀ j, j < 1 → outcomeW1 j = none) ∧ outcomeW1 1 = some ("hi") ∧
      1 < 2 ∧ (("hi") : String) ≠ ("") ∧
      retryRun outcomeW1 2 = some ("hi") ∧
      onAudioTask [] (retryRun outcomeW1 2) = applyTranscription [] ("hi")) ∧
    ((∀ j, j < 2 → outcomeW2 j = none) ∧
      retryRun outcomeW2 2 = none ∧
      onAudioTask [("x")] (retryRun outcomeW2 2) = [("x")]) :=
  ⟨⟨by decide, by decide, by decide, by decide,
    (bounded_retry 2).1 outcomeW1 1 ("hi") [] (by decide) (by decide)
      (by decide) (by decide)⟩,
   ⟨by decide, (bounded_retry 2).2 outcomeW2 [("x")] (by decide)⟩⟩

/-- C7: on a data event, when the elapsed time since the last flush has
reached the minimum chunk duration, exactly one file holding everything
buffered including this data is emitted, the buffer is reset and the flush
timestamp becomes the current time; below the minimum the data is only
appended to the buffer and nothing is emitted; the default minimum is
5000 milliseconds. -/
theorem chunk_flush (minDur : Nat) (s : CaptureState) (data now t0 : Nat)
    (h : s.startedAt = some t0) :
    (minDur ≤ now - t0 →
      onDataAvailable minDur s data now =
        { s with chunks := [], startedAt := some now,
                 emitted := s.emitted ++ [s.chunks ++ [data]] }) ∧
    (now - t0 < minDur →
      onDataAvailable minDur s data now =
        { s with chunks := s.chunks ++ [data] }) ∧
    minChunkDuration = 5000 := by
  refine ⟨?_, ?_, rfl⟩
  · intro hge
    unfold onDataAvailable
    rw [h]
    simp [Nat.not_lt.mpr hge]
  · intro hlt
    unfold onDataAvailable
    rw [h]
    simp [hlt]

/-- Witness for C7 at a concrete capture state, one data event past the
minimum duration. -/
theorem chunk_flush_witness :
    captureRunning.startedAt = some 0 ∧
    ((minChunkDuration ≤ 6000 - 0 →
      onDataAvailable minChunkDuration captureRunning 3 6000 =
        { captureRunning with
            chunks := [], startedAt := some 6000,
            emitted := captureRunning.emitted ++ [captureRunning.chunks ++ [3]] }) ∧
    (6000 - 0 < minChunkDuration →
      onDataAvailable minChunkDuration captureRunning 3 6000 =
        { captureRunning with chunks := captureRunning.chunks ++ [3] }) ∧
    minChunkDuration = 5000) :=
  ⟨by decide, chunk_flush minChunkDuration captureRunning 3 6000 0 (by decide)⟩

/-- C8 as stated is false: the teardown closure returned by captureAudio
does not cancel the trailing-delay timer scheduled by a speech-end event;
after teardown the timer is still pending and its firing still invokes the
recorder stop. -/
theorem teardown_cancel_cex :
    (teardownCapture (speechEnd captureRunning 100)).pendingStops = [130] ∧
    ¬ (teardownCapture (speechEnd captureRunning 100)).pendingStops = [] ∧
    fireStop (teardownCapture (speechEnd captureRunning 100)) ≠
      teardownCapture (speechEnd captureRunning 100) := by
  exact ⟨by decide, by decide, by decide⟩

/-- C8 amended: teardown unsubscribes speech detection and stops the
recorder immediately but leaves any pending trailing-delay timer
scheduled; when such a timer later fires it only removes itself from the
pending set, the recorder stays stopped, and the firing emits no chunk, so
buffered-but-unflushed audio is never transcribed after teardown. -/
theorem teardown_amended (s : CaptureState) :
    (teardownCapture s).speechDetectOn = false ∧
    (teardownCapture s).recActive = false ∧
    fireStop (teardownCapture s) =
      { teardownCapture s with
          pendingStops := (teardownCapture s).pendingStops.tail } ∧
    (fireStop (teardownCapture s)).recActive = false ∧
    (fireStop (teardownCapture s)).emitted = s.emitted ∧
    (fireStop (teardownCapture s)).chunks = s.chunks := by
  refine ⟨rfl, rfl, ?_, ?_, ?_, ?_⟩ <;>
    unfold fireStop teardownCapture <;>
    cases hp : s.pendingStops <;> simp [hp]

/-- The invariant of the serial queue: at every reachable state the shared
content equals the results of the already-applied tasks folded in creation
order. -/
theorem runTrace_invariant (chunkCount : Nat) (res : Nat → Option String) :
    ∀ (tr : List QEvent) (s : QState),
      s.content =
        (List.range s.applied).foldl (fun c i => onAudioTask c (res i)) [] →
      (runTrace chunkCount res s tr).content =
        (List.range (runTrace chunkCount res s tr).applied).foldl
          (fun c i => onAudioTask c (res i)) [] := by
  intro tr
  induction tr with
  | nil => intro s h; exact h
  | cons e rest ih =>
    intro s h
    show (runTrace chunkCount res (qstep chunkCount res s e) rest).content = _
    apply ih
    cases e with
    | complete i => exact h
    | run =>
      unfold qstep
      by_cases h1 : s.applied < chunkCount
      · by_cases h2 : s.done s.applied = true
        · rw [if_pos h1, if_pos h2]
          show onAudioTask s.content (res s.applied) =
            (List.range (s.applied + 1)).foldl (fun c i => onAudioTask c (res i)) []
          rw [List.range_succ, List.foldl_append, h]
          rfl
        · rw [if_pos h1, if_neg h2]
          exact h
      · rw [if_neg h1]
        exact h

/-- C1: for every chunk count and results, and every interleaving of
request completions with serial-queue run steps that ends with all tasks
applied, the final transcript equals the results applied in chunk creation
order: completion order never changes transcript order, and no two result
applications interleave since each run step is one whole task. -/
theorem transcript_order (chunkCount : Nat) (res : Nat → Option String)
    (tr : List QEvent)
    (h : (runTrace chunkCount res initQ tr).applied = chunkCount) :
    (runTrace chunkCount res initQ tr).content =
      canonicalContent chunkCount res := by
  have hinv := runTrace_invariant chunkCount res tr initQ (by rfl)
  rw [hinv, h]
  rfl

/-- Witness for C1: two chunks whose completions arrive in reverse order;
the first run step blocks until chunk 0 completes and the final content is
still in creation order. -/
theorem transcript_order_witness :
    (runTrace 2 resW initQ trW).applied = 2 ∧
    (runTrace 2 resW initQ trW).content = canonicalContent 2 resW :=
  ⟨by decide, transcript_order 2 resW trW (by decide)⟩

theorem getLast_snoc {α : Type} (l : List α) (a : α) :
    (l ++ [a]).getLast? = some a := by
  rw [List.getLast?_append_cons]
  rfl

theorem dispatch_recording (s : SessionState) :
    (Meeper.dispatch s).recording = s.recording := rfl

theorem dispatch_content (s : SessionState) :
    (Meeper.dispatch s).content = s.content := rfl

theorem dispatch_stream (s : SessionState) :
    (Meeper.dispatch s).stream = s.stream := rfl

theorem dispatch_tabStream (s : SessionState) :
    (Meeper.dispatch s).tabStream = s.tabStream := rfl

theorem dispatch_capturing (s : SessionState) :
    (Meeper.dispatch s).capturing = s.capturing := rfl

theorem dispatch_notifs (s : SessionState) :
    (Meeper.dispatch s).notifs =
      s.notifs ++ [{ recording := s.recording, content := s.content }] := rfl

theorem pause_tabStream (s : SessionState) :
    (Meeper.pause s).tabStream = s.tabStream := by
  unfold Meeper.pause
  cases h : s.recording <;> simp [Meeper.dispatch, h]

theorem start_tabStream (s : SessionState) :
    (Meeper.start s).tabStream = s.tabStream := by
  unfold Meeper.start
  cases h : (s.recording || !s.stream.active) <;> simp [Meeper.dispatch, h]

theorem stop_notifs (s : SessionState) :
    (Meeper.stop s).notifs = (Meeper.pause s).notifs := by
  unfold Meeper.stop
  cases h : (Meeper.pause s).stream.active <;> simp [h]

theorem stop_content (s : SessionState) :
    (Meeper.stop s).content = s.content := by
  unfold Meeper.stop Meeper.pause
  cases h : s.recording <;>
    cases h2 : s.recording <;> simp [Meeper.dispatch, h, h2] <;>
    split <;> rfl

theorem pause_notifs_mono (s : SessionState) :
    s.notifs.length ≤ (Meeper.pause s).notifs.length := by
  unfold Meeper.pause
  cases h : s.recording <;> simp [Meeper.dispatch, h]

theorem start_notifs_mono (s : SessionState) :
    s.notifs.length ≤ (Meeper.start s).notifs.length := by
  unfold Meeper.start
  cases h : (s.recording || !s.stream.active) <;> simp [Meeper.dispatch, h]

theorem start_cap_inv (s : SessionState) (h : s.capturing = s.recording) :
    (Meeper.start s).capturing = (Meeper.start s).recording := by
  unfold Meeper.start
  cases hg : (s.recording || !s.stream.active) <;> simp [Meeper.dispatch, hg, h]

theorem pause_cap_inv (s : SessionState) (h : s.capturing = s.recording) :
    (Meeper.pause s).capturing = (Meeper.pause s).recording := by
  rw [pause_capturing_false s h, pause_recording_false s]

theorem stopped_props (x : SessionState) (hcap : x.capturing = x.recording) :
    (Meeper.dispatch (Meeper.stop x)).recording = false ∧
    (Meeper.dispatch (Meeper.stop x)).capturing = false ∧
    (∀ b ∈ (Meeper.dispatch (Meeper.stop x)).stream.tracks, b = true) ∧
    x.notifs.length < (Meeper.dispatch (Meeper.stop x)).notifs.length ∧
    (Meeper.dispatch (Meeper.stop x)).notifs.getLast? =
      some { recording := false,
             content := (Meeper.dispatch (Meeper.stop x)).content } := by
  refine ⟨?_, ?_, ?_, ?_, ?_⟩
  · rw [dispatch_recording]
    exact stop_recording_false x
  · rw [dispatch_capturing]
    exact stop_capturing_false x hcap
  · intro b hb
    rw [dispatch_stream] at hb
    exact stop_all_ended x b hb
  · rw [dispatch_notifs, stop_notifs]
    have := pause_notifs_mono x
    rw [List.length_append]
    simp only [List.length_cons, List.length_nil]
    omega
  · rw [dispatch_notifs, getLast_snoc, dispatch_content]
    rw [stop_recording_false x]

theorem micReplace_tabStream (s : SessionState) (nm : MediaStream) :
    (Meeper.micReplace s nm).tabStream = s.tabStream := by
  unfold Meeper.micReplace
  cases h : s.recording
  · simp [h, dispatch_tabStream]
  · simp [h, start_tabStream, pause_tabStream]

theorem micReplace_cap_inv (s : SessionState) (nm : MediaStream)
    (h : s.capturing = s.recording) :
    (Meeper.micReplace s nm).capturing = (Meeper.micReplace s nm).recording := by
  unfold Meeper.micReplace
  cases hr : s.recording
  · simp [hr, dispatch_capturing, dispatch_recording]
    rw [h, hr]
  · simp only [hr, if_pos]
    apply start_cap_inv
    show (Meeper.pause s).capturing = (Meeper.pause s).recording
    exact pause_cap_inv s h

theorem micReplace_notifs_mono (s : SessionState) (nm : MediaStream) :
    s.notifs.length ≤ (Meeper.micReplace s nm).notifs.length := by
  unfold Meeper.micReplace
  cases hr : s.recording
  · simp [hr, dispatch_notifs]
  · simp only [hr, if_pos]
    exact le_trans (pause_notifs_mono s) (start_notifs_mono { Meeper.pause s with micStream := some nm, stream := Meeper.mergeStreams (Meeper.pause s).tabStream (some nm) })

theorem poll_stop_conclusion (s x : SessionState) (reacq : Option MediaStream)
    (heq : Meeper.pollStep s reacq = (Meeper.dispatch (Meeper.stop x), false))
    (hcapx : x.capturing = x.recording)
    (hmono : s.notifs.length ≤ x.notifs.length) :
    (Meeper.pollStep s reacq).2 = false ∧
    (Meeper.pollStep s reacq).1.recording = false ∧
    (Meeper.pollStep s reacq).1.capturing = false ∧
    (∀ b ∈ (Meeper.pollStep s reacq).1.stream.tracks, b = true) ∧
    s.notifs.length < (Meeper.pollStep s reacq).1.notifs.length ∧
    (Meeper.pollStep s reacq).1.notifs.getLast? =
      some { recording := false,
             content := (Meeper.pollStep s reacq).1.content } := by
  rw [heq]
  obtain ⟨p1, p2, p3, p4, p5⟩ := stopped_props x hcapx
  exact ⟨rfl, p1, p2, p3, lt_of_le_of_lt hmono p4, p5⟩

/-- C4 as stated is false at a concrete session: the tab source is live,
the microphone source is inactive and re-acquisition fails, yet the very
same poll stops the session (recording becomes false) and schedules no
next poll, rather than only logging the failure and retrying on the next
poll. -/
theorem mic_retry_cex :
    sessionMicDead.recording = true ∧
    sessionMicDead.tabStream = some ⟨[false]⟩ ∧
    MediaStream.active ⟨[false]⟩ = true ∧
    (Meeper.pollStep sessionMicDead none).2 = false ∧
    (Meeper.pollStep sessionMicDead none).1.recording = false := by
  exact ⟨by decide, by decide, by decide, by decide, by decide⟩

/-- C4 amended: when the poll finds the microphone source inactive and the
re-acquisition attempt fails, the failure itself raises no error, but the
microphone stays inactive, so the liveness check of the same poll invokes
full stop: recording and capture become false, every track of the merged
stream is stopped, a final notification is emitted and no further poll is
scheduled — the re-acquisition is not retried on a next poll. -/
theorem mic_reacq_failure_stops (s : SessionState) (m : MediaStream)
    (hm : s.micStream = some m) (hma : m.active = false)
    (hcap : s.capturing = s.recording) :
    (Meeper.pollStep s none).2 = false ∧
    (Meeper.pollStep s none).1.recording = false ∧
    (Meeper.pollStep s none).1.capturing = false ∧
    (∀ b ∈ (Meeper.pollStep s none).1.stream.tracks, b = true) ∧
    s.notifs.length < (Meeper.pollStep s none).1.notifs.length ∧
    (Meeper.pollStep s none).1.notifs.getLast? =
      some { recording := false,
             content := (Meeper.pollStep s none).1.content } := by
  apply poll_stop_conclusion s s none ?_ hcap le_rfl
  unfold Meeper.pollStep
  simp [hm, hma]

/-- Witness for the amended C4 at a concrete session with a live tab
source and a dead microphone source. -/
theorem mic_reacq_failure_stops_witness :
    sessionMicDead.micStream = some ⟨[true]⟩ ∧
    MediaStream.active ⟨[true]⟩ = false ∧
    sessionMicDead.capturing = sessionMicDead.recording ∧
    ((Meeper.pollStep sessionMicDead none).2 = false ∧
     (Meeper.pollStep sessionMicDead none).1.recording = false ∧
     (Meeper.pollStep sessionMicDead none).1.capturing = false ∧
     (∀ b ∈ (Meeper.pollStep sessionMicDead none).1.stream.tracks, b = true) ∧
     sessionMicDead.notifs.length <
       (Meeper.pollStep sessionMicDead none).1.notifs.length ∧
     (Meeper.pollStep sessionMicDead none).1.notifs.getLast? =
       some { recording := false,
              content := (Meeper.pollStep sessionMicDead none).1.content }) :=
  ⟨by decide, by decide, by decide,
    mic_reacq_failure_stops sessionMicDead ⟨[true]⟩ (by decide) (by decide)
      (by decide)⟩

/-- C5: whenever the tab-capture stream is inactive, the next poll invokes
full stop regardless of microphone state and of the re-acquisition
outcome: recording becomes false, capture stops so no further chunk is
flushed, every track of the merged stream is stopped, a final state
notification is emitted and no further poll is scheduled. -/
theorem tab_loss_stops (s : SessionState) (t : MediaStream)
    (reacq : Option MediaStream)
    (htab : s.tabStream = some t) (hta : t.active = false)
    (hcap : s.capturing = s.recording) :
    (Meeper.pollStep s reacq).2 = false ∧
    (Meeper.pollStep s reacq).1.recording = false ∧
    (Meeper.pollStep s reacq).1.capturing = false ∧
    (∀ b ∈ (Meeper.pollStep s reacq).1.stream.tracks, b = true) ∧
    s.notifs.length < (Meeper.pollStep s reacq).1.notifs.length ∧
    (Meeper.pollStep s reacq).1.notifs.getLast? =
      some { recording := false,
             content := (Meeper.pollStep s reacq).1.content } := by
  rcases hmic : s.micStream with _ | m
  · apply poll_stop_conclusion s s reacq ?_ hcap le_rfl
    unfold Meeper.pollStep
    simp [hmic, htab, hta]
  · cases hma : m.active
    · cases reacq with
      | none =>
        apply poll_stop_conclusion s s none ?_ hcap le_rfl
        unfold Meeper.pollStep
        simp [hmic, hma, htab, hta]
      | some nm =>
        apply poll_stop_conclusion s (Meeper.micReplace s nm) (some nm) ?_
          (micReplace_cap_inv s nm hcap) (micReplace_notifs_mono s nm)
        unfold Meeper.pollStep
        simp [hmic, hma, micReplace_tabStream, htab, hta]
    · apply poll_stop_conclusion s s reacq ?_ hcap le_rfl
      unfold Meeper.pollStep
      simp [hmic, hma, htab, hta]

/-- Witness for C5 at a concrete session with a dead tab source, a live
microphone and no re-acquisition outcome. -/
theorem tab_loss_stops_witness :
    sessionTabDead.tabStream = some ⟨[true]⟩ ∧
    MediaStream.active ⟨[true]⟩ = false ∧
    sessionTabDead.capturing = sessionTabDead.recording ∧
    ((Meeper.pollStep sessionTabDead none).2 = false ∧
     (Meeper.pollStep sessionTabDead none).1.recording = false ∧
     (Meeper.pollStep sessionTabDead none).1.capturing = false ∧
     (∀ b ∈ (Meeper.pollStep sessionTabDead none).1.stream.tracks, b = true) ∧
     sessionTabDead.notifs.length <
       (Meeper.pollStep sessionTabDead none).1.notifs.length ∧
     (Meeper.pollStep sessionTabDead none).1.notifs.getLast? =
       some { recording := false,
              content := (Meeper.pollStep sessionTabDead none).1.content }) :=
  ⟨by decide, by decide, by decide,
    tab_loss_stops sessionTabDead ⟨[true]⟩ none (by decide) (by decide)
      (by decide)⟩
